import Mathlib

/-!
# Verification of the Claude CLI bridge (claude-task-master fork)

Shallow embedding of the CLI-bridge code of the repository
(class ClaudeCliProvider in the README-documented provider module:
executeCommand, checkAvailability, parseCliResponse,
extractJsonFromContent, extractJsonWithFallback, generateTasksFromPrd,
and the zod validation schemas), plus the configuration lookup of
claude-cli-integration/validate-cli-integration.js.

Modelling conventions:
- JavaScript strings are Lean String values.
- JSON numbers are exact decimals (JsNumber: mantissa over a power of
  ten); this idealizes IEEE doubles, faithfully for the small decimal
  literals the schemas and claims exercise.
- A thrown JavaScript Error is an explicit error value carrying the data
  the code interpolates into the message; engine-generated message texts
  (for example the SyntaxError text of a failed JSON.parse) are modelled
  by fixed placeholder strings, since the code does not produce them.
-/

namespace CliBridge

/-- Exact decimal number: the value mant / 10 ^ exp10.  This models the
JSON number literals handled by the bridge. -/
structure JsNumber where
  mant : Int
  exp10 : Nat
deriving DecidableEq

/-- Value-level integrality test, as JavaScript Number.isInteger: the
represented value is an integer iff 10 ^ exp10 divides the mantissa. -/
def JsNumber.isInt (a : JsNumber) : Prop := a.mant % (10 : Int) ^ a.exp10 = 0

instance (a : JsNumber) : Decidable a.isInt := by
  unfold JsNumber.isInt; infer_instance

/-- Value-level positivity (the represented value is greater than 0). -/
def JsNumber.isPos (a : JsNumber) : Prop := 0 < a.mant

instance (a : JsNumber) : Decidable a.isPos := by
  unfold JsNumber.isPos; infer_instance

/-- Value-level order: mant_a / 10^e_a is at most mant_b / 10^e_b, by cross
multiplication with the positive denominators. -/
def JsNumber.le (a b : JsNumber) : Prop :=
  a.mant * (10 : Int) ^ b.exp10 ≤ b.mant * (10 : Int) ^ a.exp10

instance (a b : JsNumber) : Decidable (a.le b) := by
  unfold JsNumber.le; infer_instance

/-- Embed a natural number literal. -/
def JsNumber.ofNat (n : Nat) : JsNumber := ⟨(n : Int), 0⟩

/-- Strip trailing zero digits from the mantissa, lowering the exponent,
so that parsed numbers have one canonical representation. -/
def JsNumber.stripZeros : Int → Nat → JsNumber
  | m, 0 => ⟨m, 0⟩
  | m, e + 1 => if m % 10 = 0 then JsNumber.stripZeros (m / 10) e else ⟨m, e + 1⟩

/-- Canonical constructor for a parsed decimal value mant / 10 ^ exp10. -/
def JsNumber.canon (m : Int) (e : Nat) : JsNumber :=
  if m = 0 then ⟨0, 0⟩ else JsNumber.stripZeros m e

/-- JSON values as produced by JavaScript JSON.parse.  Object fields are
kept in source order; a later duplicate key shadows an earlier one
(JavaScript property-assignment semantics), which objGet reflects by
returning the last binding. -/
inductive Json where
  | null
  | bool (b : Bool)
  | num (n : JsNumber)
  | str (s : String)
  | arr (elems : List Json)
  | obj (fields : List (String × Json))

/-- Last-binding-wins field lookup, matching the JavaScript object built
by JSON.parse from possibly duplicated keys. -/
def objGet (fields : List (String × Json)) (key : String) : Option Json :=
  match fields with
  | [] => none
  | (k, v) :: rest =>
    match objGet rest key with
    | some w => some w
    | none => if k = key then some v else none

/-- Property read v[key] on an arbitrary JavaScript value: objects yield
the field (or undefined, modelled none); non-object non-null values yield
undefined; reading a property of null throws a TypeError, which the
surrounding code of parseCliResponse would catch. -/
def jsField : Json → String → Option Json
  | .obj fs, key => objGet fs key
  | _, _ => none

/-- JavaScript truthiness of a possibly-undefined value (none models
undefined). -/
def jsTruthy : Option Json → Bool
  | none => false
  | some .null => false
  | some (.bool b) => b
  | some (.num n) => n.mant ≠ 0
  | some (.str s) => s ≠ ""
  | some (.arr _) => true
  | some (.obj _) => true

/- Character class helpers.  Literal brace characters are written via
their code points to keep string/char literals plain. -/

/-- Opening curly brace character. -/
def lbrace : Char := Char.ofNat 0x7b

/-- Closing curly brace character. -/
def rbrace : Char := Char.ofNat 0x7d

/-- Whitespace accepted between JSON tokens by JSON.parse (ECMA-404 set:
space, tab, line feed, carriage return). -/
def isJsonWs (c : Char) : Bool :=
  c = ' ' || c = '\t' || c = '\n' || c = '\r'

/-- Character class matched by the regular-expression class backslash-s in
JavaScript, also the set removed by String.prototype.trim: ASCII
whitespace, no-break space, the Unicode space separators, line and
paragraph separators, and the byte-order mark. -/
def isJsSpace (c : Char) : Bool :=
  c = ' ' || c = '\t' || c = '\n' || c = '\x0b' || c = '\x0c' || c = '\r' ||
  c.val = 0xa0 || c.val = 0x1680 || (0x2000 ≤ c.val && c.val ≤ 0x200a) ||
  c.val = 0x2028 || c.val = 0x2029 || c.val = 0x202f || c.val = 0x205f ||
  c.val = 0x3000 || c.val = 0xfeff

/-- JavaScript String.prototype.trim. -/
def jsTrim (s : String) : String :=
  String.mk (((s.data.dropWhile isJsSpace).reverse.dropWhile isJsSpace).reverse)

/-- JavaScript String.prototype.substring(a, b): clamps both indices to
the string length and swaps them when given in descending order. -/
def jsSubstring (s : String) (a b : Nat) : String :=
  let len := s.data.length
  let a' := min a len
  let b' := min b len
  let lo := min a' b'
  let hi := max a' b'
  String.mk ((s.data.drop lo).take (hi - lo))

/-- JavaScript String.prototype.indexOf for a single character: the first
index holding the character, or -1. -/
def jsIndexOf (s : String) (c : Char) : Int :=
  match s.data.findIdx? (fun d => d = c) with
  | some i => (i : Int)
  | none => -1

/-- Index of the last occurrence of a character (JavaScript
String.prototype.lastIndexOf), or -1. -/
def jsLastIndexOf (s : String) (c : Char) : Int :=
  match s.data.reverse.findIdx? (fun d => d = c) with
  | some i => (s.data.length : Int) - 1 - (i : Int)
  | none => -1

/- JSON.parse model: a strict ECMA-404 recursive-descent decoder.
jsonParse returns none exactly where JSON.parse throws a SyntaxError. -/

/-- Digit test for JSON number grammar. -/
def isDigit (c : Char) : Bool := '0' ≤ c && c ≤ '9'

/-- Numeric value of a decimal digit character. -/
def digitVal (c : Char) : Nat := c.toNat - '0'.toNat

/-- Value of a run of decimal digit characters. -/
def natOfDigits (ds : List Char) : Nat :=
  ds.foldl (fun a c => a * 10 + digitVal c) 0

/-- Value of a hexadecimal digit character, if it is one. -/
def hexDigit? (c : Char) : Option Nat :=
  if '0' ≤ c ∧ c ≤ '9' then some (c.toNat - '0'.toNat)
  else if 'a' ≤ c ∧ c ≤ 'f' then some (c.toNat - 'a'.toNat + 10)
  else if 'A' ≤ c ∧ c ≤ 'F' then some (c.toNat - 'A'.toNat + 10)
  else none

/-- Single-character JSON string escapes. -/
def escChar? (c : Char) : Option Char :=
  if c = '"' then some '"'
  else if c = '\\' then some '\\'
  else if c = '/' then some '/'
  else if c = 'b' then some '\x08'
  else if c = 'f' then some '\x0c'
  else if c = 'n' then some '\n'
  else if c = 'r' then some '\r'
  else if c = 't' then some '\t'
  else none

/-- Body of a JSON string literal, after the opening quote: returns the
decoded characters and the remainder after the closing quote.  Control
characters must be escaped; invalid escapes are rejected. -/
def parseStringBody : List Char → Option (List Char × List Char)
  | [] => none
  | '\\' :: rest =>
    match rest with
    | [] => none
    | e :: rest2 =>
      if e = 'u' then
        match rest2 with
        | h1 :: h2 :: h3 :: h4 :: rest3 =>
          match hexDigit? h1, hexDigit? h2, hexDigit? h3, hexDigit? h4 with
          | some a, some b, some c, some d =>
            match parseStringBody rest3 with
            | some (cs, rem) =>
              some (Char.ofNat (a * 4096 + b * 256 + c * 16 + d) :: cs, rem)
            | none => none
          | _, _, _, _ => none
        | _ => none
      else
        match escChar? e with
        | some c =>
          match parseStringBody rest2 with
          | some (cs, rem) => some (c :: cs, rem)
          | none => none
        | none => none
  | c :: rest =>
    if c = '"' then some ([], rest)
    else if c.val < 0x20 then none
    else
      match parseStringBody rest with
      | some (cs, rem) => some (c :: cs, rem)
      | none => none

/-- JSON number literal: optional minus, integer part without leading
zeros, optional fraction, optional exponent.  Returns the canonical
decimal value and the remainder. -/
def parseNumber (cs : List Char) : Option (JsNumber × List Char) := do
  let (neg, cs1) :=
    match cs with
    | '-' :: t => (true, t)
    | _ => (false, cs)
  let (intDigits, cs2) ←
    match cs1 with
    | c :: t =>
      if c = '0' then some ([c], t)
      else if isDigit c then some (c :: t.takeWhile isDigit, t.dropWhile isDigit)
      else none
    | [] => none
  let (fracDigits, cs3) ←
    match cs2 with
    | c :: t =>
      if c = '.' then
        let f := t.takeWhile isDigit
        if f = [] then none else some (f, t.dropWhile isDigit)
      else some (([] : List Char), cs2)
    | [] => some (([] : List Char), cs2)
  let (expNeg, expDigits, cs4) ←
    match cs3 with
    | c :: t =>
      if c = 'e' ∨ c = 'E' then
        let (en, t2) :=
          match t with
          | '+' :: u => (false, u)
          | '-' :: u => (true, u)
          | _ => (false, t)
        let ed := t2.takeWhile isDigit
        if ed = [] then none else some (en, ed, t2.dropWhile isDigit)
      else some (false, ([] : List Char), cs3)
    | [] => some (false, ([] : List Char), cs3)
  let base : Nat := natOfDigits (intDigits ++ fracDigits)
  let mant0 : Int := if neg then -(base : Int) else (base : Int)
  let expVal : Int :=
    if expNeg then -(natOfDigits expDigits : Int) else (natOfDigits expDigits : Int)
  let net : Int := expVal - (fracDigits.length : Int)
  if 0 ≤ net then
    some (JsNumber.canon (mant0 * (10 : Int) ^ net.toNat) 0, cs4)
  else
    some (JsNumber.canon mant0 (-net).toNat, cs4)

mutual

/-- JSON value at the head of the input (leading whitespace allowed),
with explicit recursion fuel. -/
def parseVal : Nat → List Char → Option (Json × List Char)
  | 0, _ => none
  | Nat.succ fuel, cs0 =>
    let cs := cs0.dropWhile isJsonWs
    match cs with
    | [] => none
    | c :: t =>
      if ['t', 'r', 'u', 'e'].isPrefixOf cs then some (.bool true, cs.drop 4)
      else if ['f', 'a', 'l', 's', 'e'].isPrefixOf cs then some (.bool false, cs.drop 5)
      else if ['n', 'u', 'l', 'l'].isPrefixOf cs then some (.null, cs.drop 4)
      else if c = '"' then
        match parseStringBody t with
        | some (body, rest) => some (.str (String.mk body), rest)
        | none => none
      else if c = lbrace then parseMembers fuel t true []
      else if c = '[' then parseElems fuel t true []
      else if c = '-' ∨ isDigit c then
        match parseNumber cs with
        | some (n, rest) => some (.num n, rest)
        | none => none
      else none

/-- Members of a JSON object, after the opening brace (when first) or
after a comma. -/
def parseMembers : Nat → List Char → Bool → List (String × Json) →
    Option (Json × List Char)
  | 0, _, _, _ => none
  | Nat.succ fuel, cs, first, acc =>
    let cs1 := cs.dropWhile isJsonWs
    match cs1 with
    | [] => none
    | c :: t =>
      if first ∧ c = rbrace then some (.obj acc, t)
      else if c = '"' then
        match parseStringBody t with
        | some (key, rest) =>
          match (rest.dropWhile isJsonWs) with
          | ':' :: rest2 =>
            match parseVal fuel rest2 with
            | some (v, rest3) =>
              match (rest3.dropWhile isJsonWs) with
              | d :: rest5 =>
                if d = ',' then
                  parseMembers fuel rest5 false (acc ++ [(String.mk key, v)])
                else if d = rbrace then
                  some (.obj (acc ++ [(String.mk key, v)]), rest5)
                else none
              | [] => none
            | none => none
          | _ => none
        | none => none
      else none

/-- Elements of a JSON array, after the opening bracket (when first) or
after a comma. -/
def parseElems : Nat → List Char → Bool → List Json → Option (Json × List Char)
  | 0, _, _, _ => none
  | Nat.succ fuel, cs, first, acc =>
    let cs1 := cs.dropWhile isJsonWs
    match cs1 with
    | [] => none
    | c :: t =>
      if first ∧ c = ']' then some (.arr acc, t)
      else
        match parseVal fuel cs1 with
        | some (v, rest) =>
          match (rest.dropWhile isJsonWs) with
          | d :: rest2 =>
            if d = ',' then parseElems fuel rest2 false (acc ++ [v])
            else if d = ']' then some (.arr (acc ++ [v]), rest2)
            else none
          | [] => none
        | none => none

end

/-- Model of JavaScript JSON.parse: some value on success, none where
JSON.parse throws a SyntaxError.  The fuel bound exceeds the maximal
possible nesting depth of the input, so it never cuts a parse short. -/
def jsonParse (s : String) : Option Json :=
  match parseVal (s.data.length * 2 + 4) s.data with
  | some (v, rest) => if rest.dropWhile isJsonWs = [] then some v else none
  | none => none

/- Model of the fenced-code-block regular expression used by
extractJsonWithFallback, with JavaScript backtracking semantics:
three backquotes, an optional json tag (preferred), greedy whitespace
ending at a newline, a lazy capture, then newline and three backquotes.
The match is searched at the leftmost possible start position. -/

/-- Backquote character, written via its code point. -/
def backquote : Char := Char.ofNat 0x60

/-- Three backquotes: the fence delimiter of the code-block pattern. -/
def fenceChars : List Char := [backquote, backquote, backquote]

/-- First index at which the pattern occurs as a sublist. -/
def findSub (pat : List Char) : List Char → Option Nat
  | [] => if pat.isPrefixOf ([] : List Char) then some 0 else none
  | c :: t =>
    if pat.isPrefixOf (c :: t) then some 0 else (findSub pat t).map (· + 1)

/-- Lazy capture of the code-block interior: the shortest prefix of the
input followed by a newline and a closing fence. -/
def lazyCapture (cs : List Char) : Option (List Char) :=
  (findSub ('\n' :: fenceChars) cs).map (fun m => cs.take m)

/-- Backtracking for the greedy whitespace-then-newline part: try the
newline at offset k, k-1, ..., 0, and at each candidate attempt the lazy
capture of the interior. -/
def findNlBack (rest : List Char) : Nat → Option (List Char)
  | 0 => if rest.get? 0 = some '\n' then lazyCapture (rest.drop 1) else none
  | k + 1 =>
    match (if rest.get? (k + 1) = some '\n' then lazyCapture (rest.drop (k + 2)) else none) with
    | some cap => some cap
    | none => findNlBack rest k

/-- Attempt the code-block pattern anchored at the head of the input,
trying one opening delimiter (with or without the json tag). -/
def matchOpenAt (openPat : List Char) (cs : List Char) : Option (List Char) :=
  if openPat.isPrefixOf cs then
    let rest := cs.drop openPat.length
    findNlBack rest (rest.takeWhile isJsSpace).length
  else none

/-- Attempt the code-block pattern anchored at the head of the input; the
optional json tag is tried greedily first. -/
def matchCodeBlockAt (cs : List Char) : Option (List Char) :=
  match matchOpenAt (fenceChars ++ ['j', 's', 'o', 'n']) cs with
  | some cap => some cap
  | none => matchOpenAt fenceChars cs

/-- Leftmost match of the code-block pattern over the whole input. -/
def findCodeBlockList : List Char → Option (List Char)
  | [] => none
  | c :: t =>
    match matchCodeBlockAt (c :: t) with
    | some cap => some cap
    | none => findCodeBlockList t

/-- Captured interior of the first fenced code block of the content, as
content.match(codeBlockRegex) produces it in group 1. -/
def findCodeBlock (s : String) : Option String :=
  (findCodeBlockList s.data).map String.mk

/- ContentExtractor: extractJsonFromContent and its fallback ladder. -/

/-- Strategy 1 of the extraction ladder: JSON.parse(content.trim()), the
try branch of extractJsonFromContent. -/
def directStrategy (content : String) : Option Json :=
  jsonParse (jsTrim content)

/-- Strategy 2 (first closure of extractJsonWithFallback): find a fenced
code block and JSON.parse its trimmed interior; no code block or a parse
failure makes the strategy throw, modelled none. -/
def codeBlockStrategy (content : String) : Option Json :=
  match findCodeBlock content with
  | some inner => jsonParse (jsTrim inner)
  | none => none

/-- Strategy 3 (second closure of extractJsonWithFallback): JSON.parse of
the substring from the first opening brace to the last closing brace,
inclusive; requires both braces with the opener strictly first. -/
def braceStrategy (content : String) : Option Json :=
  let firstBrace := jsIndexOf content lbrace
  let lastBrace := jsLastIndexOf content rbrace
  if firstBrace = -1 ∨ lastBrace = -1 ∨ firstBrace ≥ lastBrace then none
  else jsonParse (jsSubstring content firstBrace.toNat (lastBrace.toNat + 1))

/-- Message of the error thrown when every fallback strategy has failed. -/
def extractionFailureMsg (content : String) : String :=
  "Could not extract valid JSON from content: " ++ jsSubstring content 0 200 ++ "..."

/-- Fallback extraction: the strategies array iterated in order, first
success returned, all-fail throwing the truncated-preview error. -/
def extractJsonWithFallback (content : String) : Except String Json :=
  match codeBlockStrategy content with
  | some v => .ok v
  | none =>
    match braceStrategy content with
    | some v => .ok v
    | none => .error (extractionFailureMsg content)

/-- Extraction entry point: direct parse first, then the fallback ladder. -/
def extractJsonFromContent (content : String) : Except String Json :=
  match directStrategy content with
  | some v => .ok v
  | none => extractJsonWithFallback content

/-- Instrumented run of the extraction ladder: the same control flow, also
returning the 1-based indices of the strategies invoked, in invocation
order. -/
def extractJsonRun (content : String) : Except String Json × List Nat :=
  match directStrategy content with
  | some v => (.ok v, [1])
  | none =>
    match codeBlockStrategy content with
    | some v => (.ok v, [1, 2])
    | none =>
      match braceStrategy content with
      | some v => (.ok v, [1, 2, 3])
      | none => (.error (extractionFailureMsg content), [1, 2, 3])

/- JavaScript string conversion, as used by template-literal
interpolation in the thrown error messages. -/

/-- Decimal rendering of a JsNumber, as JavaScript renders the finite
decimals in play (exponent notation for extreme magnitudes is outside the
modelled range). -/
def jsNumToString (n : JsNumber) : String :=
  let sign := if n.mant < 0 then "-" else ""
  let ds := toString n.mant.natAbs
  if n.exp10 = 0 then sign ++ ds
  else
    let ds :=
      if n.exp10 + 1 ≤ ds.length then ds
      else String.mk (List.replicate (n.exp10 + 1 - ds.length) '0') ++ ds
    sign ++ jsSubstring ds 0 (ds.length - n.exp10) ++ "." ++
      jsSubstring ds (ds.length - n.exp10) ds.length

mutual

/-- JavaScript String() conversion of a JSON value. -/
def jsToString : Json → String
  | .null => "null"
  | .bool true => "true"
  | .bool false => "false"
  | .num n => jsNumToString n
  | .str s => s
  | .arr xs => jsArrJoin xs
  | .obj _ => "[object Object]"

/-- Array.prototype.toString: elements joined by commas, null rendered
empty. -/
def jsArrJoin : List Json → String
  | [] => ""
  | x :: xs =>
    let s :=
      match x with
      | .null => ""
      | v => jsToString v
    match xs with
    | [] => s
    | _ :: _ => s ++ "," ++ jsArrJoin xs

end

/- EnvelopeParser: parseCliResponse.  The try block can throw at three
sites (JSON.parse, the is_error check, the empty-result check); the catch
block wraps whichever error it caught in a fixed diagnostic frame.  The
engine-generated texts of a SyntaxError from JSON.parse and of a
TypeError from reading a property of null are modelled by fixed
placeholder strings; no claim depends on them. -/

/-- Failure raised inside the try block of parseCliResponse, before the
catch block wraps it. -/
inductive CliInnerErr where
  | jsDecode (msg : String)
  | toolRequestFailed (result : Option Json)
  | noResultContent

/-- Message of the inner failure, as the code builds it (jsDecode carries
the modelled engine text). -/
def CliInnerErr.message : CliInnerErr → String
  | .jsDecode m => m
  | .toolRequestFailed r =>
    "Claude CLI request failed: " ++
      (if jsTruthy r then jsToString (r.getD .null) else "Unknown error")
  | .noResultContent => "No result content in Claude CLI response"

/-- Error thrown by parseCliResponse: the inner failure wrapped by the
catch block, keeping the raw output for the truncated preview. -/
structure CliError where
  inner : CliInnerErr
  rawOutput : String

/-- Message of the wrapped error, exactly as the catch block builds it. -/
def CliError.message (e : CliError) : String :=
  "Failed to parse CLI response: " ++ e.inner.message ++
    "\nRaw output: " ++ jsSubstring e.rawOutput 0 500 ++ "..."

/-- Try block of parseCliResponse: decode the envelope, fail on a truthy
is_error flag, fail on a falsy result, otherwise return the result. -/
def parseCliResponseInner (rawOutput : String) : Except CliInnerErr Json :=
  match jsonParse rawOutput with
  | none => .error (.jsDecode "Unexpected token in JSON")
  | some cliResponse =>
    match cliResponse with
    | .null => .error (.jsDecode "Cannot read properties of null")
    | v =>
      if jsTruthy (jsField v "is_error") then
        .error (.toolRequestFailed (jsField v "result"))
      else
        let aiContent := jsField v "result"
        if jsTruthy aiContent then .ok (aiContent.getD .null)
        else .error .noResultContent

/-- parseCliResponse: the try block with every failure re-wrapped by the
catch block. -/
def parseCliResponse (rawOutput : String) : Except CliError Json :=
  match parseCliResponseInner rawOutput with
  | .ok v => .ok v
  | .error e => .error ⟨e, rawOutput⟩

/- SchemaValidator: the zod schemas of the provider module, modelled as
validation functions from JSON values to typed results.  Issue texts are
abbreviated renderings of the zod messages; field order and the
first-failure discipline follow the schema declarations. -/

/-- Validated task of prdSingleTaskSchema. -/
structure PrdTask where
  id : JsNumber
  title : String
  description : String
  details : String
  testStrategy : String
  priority : String
  dependencies : List JsNumber
  status : String
deriving DecidableEq

/-- Validated metadata object of prdResponseSchema. -/
structure PrdMetadata where
  projectName : String
  totalTasks : JsNumber
  sourceFile : String
  generatedAt : String
deriving DecidableEq

/-- Validated task-set document of prdResponseSchema. -/
structure PrdResponse where
  tasks : List PrdTask
  metadata : PrdMetadata
deriving DecidableEq

/-- Validated entry of complexityAnalysisItemSchema. -/
structure ComplexityItem where
  taskId : JsNumber
  taskTitle : String
  complexityScore : JsNumber
  recommendedSubtasks : JsNumber
  expansionPrompt : String
  reasoning : String
deriving DecidableEq

/-- Field check for z.number().int().positive(). -/
def zNumIntPos (field : String) (v : Option Json) : Except String JsNumber :=
  match v with
  | some (.num n) =>
    if ¬ n.isInt then .error (field ++ ": expected integer")
    else if ¬ n.isPos then .error (field ++ ": must be greater than 0")
    else .ok n
  | some _ => .error (field ++ ": expected number")
  | none => .error (field ++ ": required")

/-- Field check for z.number(). -/
def zNum (field : String) (v : Option Json) : Except String JsNumber :=
  match v with
  | some (.num n) => .ok n
  | some _ => .error (field ++ ": expected number")
  | none => .error (field ++ ": required")

/-- Field check for z.string(). -/
def zStr (field : String) (v : Option Json) : Except String String :=
  match v with
  | some (.str s) => .ok s
  | some _ => .error (field ++ ": expected string")
  | none => .error (field ++ ": required")

/-- Field check for z.string().min(1). -/
def zStrMin1 (field : String) (v : Option Json) : Except String String :=
  match v with
  | some (.str s) =>
    if 1 ≤ s.length then .ok s
    else .error (field ++ ": must contain at least 1 character")
  | some _ => .error (field ++ ": expected string")
  | none => .error (field ++ ": required")

/-- Field check for z.string().optional().default(dflt). -/
def zStrDefault (field : String) (dflt : String) (v : Option Json) :
    Except String String :=
  match v with
  | none => .ok dflt
  | some (.str s) => .ok s
  | some _ => .error (field ++ ": expected string")

/-- Field check for the priority enum with default medium. -/
def zPriorityField (v : Option Json) : Except String String :=
  match v with
  | none => .ok "medium"
  | some (.str s) =>
    if s = "high" ∨ s = "medium" ∨ s = "low" then .ok s
    else .error "priority: invalid enum value"
  | some _ => .error "priority: invalid enum value"

/-- Element-wise validation of a list, stopping at the first failing
element, as zod validates arrays. -/
def mapME (f : α → Except ε β) : List α → Except ε (List β)
  | [] => .ok []
  | x :: xs =>
    match f x with
    | .error e => .error e
    | .ok y =>
      match mapME f xs with
      | .error e => .error e
      | .ok ys => .ok (y :: ys)

/-- Element check of the dependencies array:
z.number().int().positive(). -/
def zDepElem (x : Json) : Except String JsNumber :=
  match x with
  | .num n =>
    if ¬ n.isInt then .error "dependencies: expected integer"
    else if ¬ n.isPos then .error "dependencies: must be greater than 0"
    else .ok n
  | _ => .error "dependencies: expected number"

/-- Field check for z.array(z.number().int().positive()).optional()
.default([]). -/
def zDepsField (v : Option Json) : Except String (List JsNumber) :=
  match v with
  | none => .ok []
  | some (.arr xs) => mapME zDepElem xs
  | some _ => .error "dependencies: expected array"

/-- Field check for z.number().min(1).max(10), the complexity score. -/
def zScore (v : Option Json) : Except String JsNumber :=
  match v with
  | some (.num n) =>
    if ¬ (JsNumber.ofNat 1).le n then
      .error "complexityScore: must be greater than or equal to 1"
    else if ¬ n.le (JsNumber.ofNat 10) then
      .error "complexityScore: must be less than or equal to 10"
    else .ok n
  | some _ => .error "complexityScore: expected number"
  | none => .error "complexityScore: required"

/-- prdSingleTaskSchema.parse on a JSON value: the fields in declaration
order, first failure reported. -/
def prdSingleTaskSchema (v : Json) : Except String PrdTask :=
  match v with
  | .obj fs =>
    match zNumIntPos "id" (objGet fs "id") with
    | .error e => .error e
    | .ok id =>
      match zStrMin1 "title" (objGet fs "title") with
      | .error e => .error e
      | .ok title =>
        match zStrMin1 "description" (objGet fs "description") with
        | .error e => .error e
        | .ok description =>
          match zStrDefault "details" "" (objGet fs "details") with
          | .error e => .error e
          | .ok details =>
            match zStrDefault "testStrategy" "" (objGet fs "testStrategy") with
            | .error e => .error e
            | .ok testStrategy =>
              match zPriorityField (objGet fs "priority") with
              | .error e => .error e
              | .ok priority =>
                match zDepsField (objGet fs "dependencies") with
                | .error e => .error e
                | .ok dependencies =>
                  match zStrDefault "status" "pending" (objGet fs "status") with
                  | .error e => .error e
                  | .ok status =>
                    .ok ⟨id, title, description, details, testStrategy,
                         priority, dependencies, status⟩
  | _ => .error "expected object"

/-- Metadata sub-schema of prdResponseSchema. -/
def prdMetadataSchema (v : Json) : Except String PrdMetadata :=
  match v with
  | .obj fs =>
    match zStr "projectName" (objGet fs "projectName") with
    | .error e => .error e
    | .ok projectName =>
      match zNum "totalTasks" (objGet fs "totalTasks") with
      | .error e => .error e
      | .ok totalTasks =>
        match zStr "sourceFile" (objGet fs "sourceFile") with
        | .error e => .error e
        | .ok sourceFile =>
          match zStr "generatedAt" (objGet fs "generatedAt") with
          | .error e => .error e
          | .ok generatedAt => .ok ⟨projectName, totalTasks, sourceFile, generatedAt⟩
  | _ => .error "metadata: expected object"

/-- prdResponseSchema.parse on a JSON value. -/
def prdResponseSchema (v : Json) : Except String PrdResponse :=
  match v with
  | .obj fs =>
    match
      (match objGet fs "tasks" with
       | some (.arr ts) => mapME prdSingleTaskSchema ts
       | some _ => .error "tasks: expected array"
       | none => .error "tasks: required") with
    | .error e => .error e
    | .ok tasks =>
      match
        (match objGet fs "metadata" with
         | some m => prdMetadataSchema m
         | none => .error "metadata: required") with
      | .error e => .error e
      | .ok metadata => .ok ⟨tasks, metadata⟩
  | _ => .error "expected object"

/-- complexityAnalysisItemSchema.parse on a JSON value. -/
def complexityAnalysisItemSchema (v : Json) : Except String ComplexityItem :=
  match v with
  | .obj fs =>
    match zNum "taskId" (objGet fs "taskId") with
    | .error e => .error e
    | .ok taskId =>
      match zStr "taskTitle" (objGet fs "taskTitle") with
      | .error e => .error e
      | .ok taskTitle =>
        match zScore (objGet fs "complexityScore") with
        | .error e => .error e
        | .ok complexityScore =>
          match zNum "recommendedSubtasks" (objGet fs "recommendedSubtasks") with
          | .error e => .error e
          | .ok recommendedSubtasks =>
            match zStr "expansionPrompt" (objGet fs "expansionPrompt") with
            | .error e => .error e
            | .ok expansionPrompt =>
              match zStr "reasoning" (objGet fs "reasoning") with
              | .error e => .error e
              | .ok reasoning =>
                .ok ⟨taskId, taskTitle, complexityScore, recommendedSubtasks,
                     expansionPrompt, reasoning⟩
  | _ => .error "expected object"

/-- complexityAnalysisSchema.parse: an array of complexity entries. -/
def complexityAnalysisSchema (v : Json) : Except String (List ComplexityItem) :=
  match v with
  | .arr xs => mapME complexityAnalysisItemSchema xs
  | _ => .error "expected array"

/- ProcessExecutor: executeCommand.  The promise body reacts to events
delivered by the event loop (data chunks, the armed timer firing, the
close event, the spawn-error event); the model folds the handler code
over an arbitrary event trace.  Promise semantics make the first
resolve/reject win; later settlement attempts are ignored. -/

/-- Settlement of the executeCommand promise. -/
inductive ExecOutcome where
  | success (stdout : String)
  | timedOut (timeoutMs : Int)
  | processError (code : Int) (stderr : String)
  | spawnError (msg : String)
deriving DecidableEq

/-- Message of the Error the promise rejects with (empty for the resolve
case, which carries no error). -/
def execErrMsg : ExecOutcome → String
  | .success _ => ""
  | .timedOut t => "Claude CLI command timed out after " ++ toString t ++ "ms"
  | .processError code stderr =>
    "Claude CLI exited with code " ++ toString code ++
      (if stderr ≠ "" then ": " ++ stderr else "")
  | .spawnError m => "Failed to spawn Claude CLI: " ++ m

/-- Events the event loop can deliver to the promise body. -/
inductive ProcEvent where
  | stdoutData (s : String)
  | stderrData (s : String)
  | timerFire
  | closeEv (code : Int)
  | errorEv (msg : String)

/-- Data events (stdout/stderr chunks) never settle the promise. -/
def isDataEv : ProcEvent → Bool
  | .stdoutData _ => true
  | .stderrData _ => true
  | _ => false

/-- State of one executeCommand call: collected output, whether the
deadline timer is armed, whether SIGTERM was sent, and the settlement. -/
structure ExecState where
  stdout : String
  stderr : String
  timerArmed : Bool
  sigtermSent : Bool
  settled : Option ExecOutcome
deriving DecidableEq

/-- Initial state: the timer is armed only for a positive timeout
(the if (timeout > 0) guard around setTimeout). -/
def execInit (timeout : Int) : ExecState :=
  ⟨"", "", if 0 < timeout then true else false, false, none⟩

/-- First resolve/reject wins; a second settlement attempt is ignored. -/
def settleWith (st : ExecState) (o : ExecOutcome) : ExecState :=
  match st.settled with
  | some _ => st
  | none => { st with settled := some o }

/-- Handler code run for one delivered event: data appends to the
buffers; the timer handler kills with SIGTERM and rejects with the
timeout error; close clears the timer and resolves (code 0) or rejects
with the exit-code error; the spawn-error event clears the timer and
rejects. -/
def execStep (timeout : Int) (st : ExecState) (ev : ProcEvent) : ExecState :=
  match ev with
  | .stdoutData s => { st with stdout := st.stdout ++ s }
  | .stderrData s => { st with stderr := st.stderr ++ s }
  | .timerFire =>
    if st.timerArmed then
      settleWith { st with timerArmed := false, sigtermSent := true } (.timedOut timeout)
    else st
  | .closeEv code =>
    let st1 := { st with timerArmed := false }
    if code = 0 then settleWith st1 (.success st1.stdout)
    else settleWith st1 (.processError code st1.stderr)
  | .errorEv m =>
    let st1 := { st with timerArmed := false }
    settleWith st1 (.spawnError m)

/-- One executeCommand call as a fold of the handler code over the event
trace delivered by the event loop. -/
def executeCommandRun (timeout : Int) (events : List ProcEvent) : ExecState :=
  events.foldl (execStep timeout) (execInit timeout)

/- AvailabilityProbe: checkAvailability with its cached isAvailable flag. -/

/-- Mutable state of a ClaudeCliProvider instance: the cached
availability flag (null before the first probe). -/
structure ProviderState where
  isAvailable : Option Bool
deriving DecidableEq

/-- Message of the error thrown when the availability probe fails. -/
def availabilityErrMsg (o : ExecOutcome) : String :=
  "Claude CLI not available: " ++ execErrMsg o

/-- checkAvailability: returns the cached flag when set; otherwise runs
the version probe (whose settlement is the probe argument), caches the
boolean, and returns true or throws.  The last component records
whether the underlying probe was performed. -/
def checkAvailability (st : ProviderState) (probe : ExecOutcome) :
    Except String Bool × ProviderState × Bool :=
  match st.isAvailable with
  | some b => (.ok b, st, false)
  | none =>
    match probe with
    | .success _ => (.ok true, ⟨some true⟩, true)
    | o => (.error (availabilityErrMsg o), ⟨some false⟩, true)

/-- Two consecutive checkAvailability calls on a fresh provider instance:
both call results and the number of underlying probes performed. -/
def checkTwiceRuns (p1 p2 : ExecOutcome) :
    Except String Bool × Except String Bool × Nat :=
  let r1 := checkAvailability ⟨none⟩ p1
  let r2 := checkAvailability r1.2.1 p2
  (r1.1, r2.1, (if r1.2.2 then 1 else 0) + (if r2.2.2 then 1 else 0))

/- OperationFacade: generateTasksFromPrd. -/

/-- Failure a facade operation can propagate, by pipeline stage. -/
inductive FacadeErr where
  | unavailable (msg : String)
  | execFailed (msg : String)
  | parseFailed (e : CliError)
  | jsTypeError (msg : String)
  | extractionFailed (msg : String)
  | validationFailed (msg : String)

/-- Whether a facade failure is the availability-gate failure. -/
def FacadeErr.isUnavailable : FacadeErr → Bool
  | .unavailable _ => true
  | _ => false

/-- External settlements one facade call depends on: the availability
probe (used only when the flag is uncached) and the main command. -/
structure FacadeEnv where
  probe : ExecOutcome
  exec : ExecOutcome

/-- Value returned by generateTasksFromPrd on success: the validated
response wrapped with a success flag. -/
structure PrdGenResult where
  mainResult : PrdResponse
  success : Bool
deriving DecidableEq

/-- generateTasksFromPrd: await checkAvailability (return value
discarded), executeCommand, parseCliResponse, extractJsonFromContent,
prdResponseSchema validation with the wrapped validation error.  The
result of parseCliResponse is fed to content.trim(), which throws a
TypeError when the envelope result was a truthy non-string.  The last
component records whether the main process was spawned. -/
def generateTasksFromPrdRun (st : ProviderState) (env : FacadeEnv) :
    Except FacadeErr PrdGenResult × ProviderState × Bool :=
  match checkAvailability st env.probe with
  | (.error m, st1, _) => (.error (.unavailable m), st1, false)
  | (.ok _, st1, _) =>
    match env.exec with
    | .success rawOutput =>
      let r : Except FacadeErr PrdGenResult :=
        match parseCliResponse rawOutput with
        | .error e => .error (.parseFailed e)
        | .ok aiContent =>
          match aiContent with
          | .str content =>
            match extractJsonFromContent content with
            | .error m => .error (.extractionFailed m)
            | .ok jsonResponse =>
              match prdResponseSchema jsonResponse with
              | .ok validatedResponse => .ok ⟨validatedResponse, true⟩
              | .error m =>
                .error (.validationFailed ("Generated tasks failed validation: " ++ m))
          | _ => .error (.jsTypeError "content.trim is not a function")
      (r, st1, true)
    | o => (.error (.execFailed (execErrMsg o)), st1, true)

/- Configuration surface: executable location (claim C9). -/

/-- Environment lookup process.env[name], none when the variable is
unset. -/
def envGet (env : List (String × String)) (name : String) : Option String :=
  (env.find? (fun p => p.1 = name)).map (·.2)

/-- Executable the bridge executeCommand spawns: the literal claude,
independent of the environment (spawn with a hard-coded command). -/
def bridgeSpawnTarget (_env : List (String × String)) : String := "claude"

/-- Executable the validation script resolves:
process.env.CLAUDE_CLI_PATH with the falsy-fallback to claude. -/
def validatorCliPath (env : List (String × String)) : String :=
  match envGet env "CLAUDE_CLI_PATH" with
  | some p => if p ≠ "" then p else "claude"
  | none => "claude"

/-! ## Helper lemmas -/

/-- Element-wise validation success: every input element validates to
some member of the output list. -/
theorem mapME_mem {α β ε : Type} {f : α → Except ε β} {xs : List α} {l : List β}
    (h : mapME f xs = .ok l) {x : α} (hx : x ∈ xs) : ∃ y, y ∈ l ∧ f x = .ok y := by
  induction xs generalizing l with
  | nil => cases hx
  | cons a as ih =>
    unfold mapME at h
    cases hf : f a with
    | error e => rw [hf] at h; cases h
    | ok y =>
      rw [hf] at h
      cases hrest : mapME f as with
      | error e => rw [hrest] at h; cases h
      | ok ys =>
        rw [hrest] at h
        cases h
        cases hx with
        | head => exact ⟨y, List.mem_cons_self _ _, hf⟩
        | tail _ hmem =>
          obtain ⟨y', hy', hfy⟩ := ih hrest hmem
          exact ⟨y', List.mem_cons_of_mem _ hy', hfy⟩

/-- Characterization of a successful prdSingleTaskSchema validation as
the conjunction of its per-field checks. -/
theorem prdSingleTaskSchema_ok_iff (fs : List (String × Json)) (t : PrdTask) :
    prdSingleTaskSchema (.obj fs) = .ok t ↔
      zNumIntPos "id" (objGet fs "id") = .ok t.id
      ∧ zStrMin1 "title" (objGet fs "title") = .ok t.title
      ∧ zStrMin1 "description" (objGet fs "description") = .ok t.description
      ∧ zStrDefault "details" "" (objGet fs "details") = .ok t.details
      ∧ zStrDefault "testStrategy" "" (objGet fs "testStrategy") = .ok t.testStrategy
      ∧ zPriorityField (objGet fs "priority") = .ok t.priority
      ∧ zDepsField (objGet fs "dependencies") = .ok t.dependencies
      ∧ zStrDefault "status" "pending" (objGet fs "status") = .ok t.status := by
  obtain ⟨t1, t2, t3, t4, t5, t6, t7, t8⟩ := t
  unfold prdSingleTaskSchema
  cases h1 : zNumIntPos "id" (objGet fs "id")
  case error => simp [h1]
  case ok a1 =>
  cases h2 : zStrMin1 "title" (objGet fs "title")
  case error => simp [h1, h2]
  case ok a2 =>
  cases h3 : zStrMin1 "description" (objGet fs "description")
  case error => simp [h1, h2, h3]
  case ok a3 =>
  cases h4 : zStrDefault "details" "" (objGet fs "details")
  case error => simp [h1, h2, h3, h4]
  case ok a4 =>
  cases h5 : zStrDefault "testStrategy" "" (objGet fs "testStrategy")
  case error => simp [h1, h2, h3, h4, h5]
  case ok a5 =>
  cases h6 : zPriorityField (objGet fs "priority")
  case error => simp [h1, h2, h3, h4, h5, h6]
  case ok a6 =>
  cases h7 : zDepsField (objGet fs "dependencies")
  case error => simp [h1, h2, h3, h4, h5, h6, h7]
  case ok a7 =>
  cases h8 : zStrDefault "status" "pending" (objGet fs "status")
  case error => simp [h1, h2, h3, h4, h5, h6, h7, h8]
  case ok a8 => simp [h1, h2, h3, h4, h5, h6, h7, h8, and_assoc]

/-- Characterization of a successful complexityAnalysisItemSchema
validation as the conjunction of its per-field checks. -/
theorem complexityAnalysisItemSchema_ok_iff (fs : List (String × Json))
    (it : ComplexityItem) :
    complexityAnalysisItemSchema (.obj fs) = .ok it ↔
      zNum "taskId" (objGet fs "taskId") = .ok it.taskId
      ∧ zStr "taskTitle" (objGet fs "taskTitle") = .ok it.taskTitle
      ∧ zScore (objGet fs "complexityScore") = .ok it.complexityScore
      ∧ zNum "recommendedSubtasks" (objGet fs "recommendedSubtasks") = .ok it.recommendedSubtasks
      ∧ zStr "expansionPrompt" (objGet fs "expansionPrompt") = .ok it.expansionPrompt
      ∧ zStr "reasoning" (objGet fs "reasoning") = .ok it.reasoning := by
  obtain ⟨t1, t2, t3, t4, t5, t6⟩ := it
  unfold complexityAnalysisItemSchema
  cases h1 : zNum "taskId" (objGet fs "taskId")
  case error => simp [h1]
  case ok a1 =>
  cases h2 : zStr "taskTitle" (objGet fs "taskTitle")
  case error => simp [h1, h2]
  case ok a2 =>
  cases h3 : zScore (objGet fs "complexityScore")
  case error => simp [h1, h2, h3]
  case ok a3 =>
  cases h4 : zNum "recommendedSubtasks" (objGet fs "recommendedSubtasks")
  case error => simp [h1, h2, h3, h4]
  case ok a4 =>
  cases h5 : zStr "expansionPrompt" (objGet fs "expansionPrompt")
  case error => simp [h1, h2, h3, h4, h5]
  case ok a5 =>
  cases h6 : zStr "reasoning" (objGet fs "reasoning")
  case error => simp [h1, h2, h3, h4, h5, h6]
  case ok a6 => simp [h1, h2, h3, h4, h5, h6, and_assoc]

/-- Promise settle-once: once the call state is settled, later events
never change the settlement. -/
theorem execFold_settled_persists (timeout : Int) (evs : List ProcEvent)
    (st : ExecState) (o : ExecOutcome) (h : st.settled = some o) :
    (evs.foldl (execStep timeout) st).settled = some o := by
  induction evs generalizing st with
  | nil => exact h
  | cons e es ih =>
    refine ih (execStep timeout st e) ?_
    cases e with
    | stdoutData s => simpa [execStep] using h
    | stderrData s => simpa [execStep] using h
    | timerFire =>
      simp only [execStep]
      split <;> simp [settleWith, h]
    | closeEv code =>
      simp only [execStep]
      split <;> simp [settleWith, h]
    | errorEv m =>
      simp only [execStep]
      simp [settleWith, h]

/-- Once SIGTERM has been sent, no later event unsets the record of it. -/
theorem execFold_sigterm_persists (timeout : Int) (evs : List ProcEvent)
    (st : ExecState) (h : st.sigtermSent = true) :
    (evs.foldl (execStep timeout) st).sigtermSent = true := by
  induction evs generalizing st with
  | nil => exact h
  | cons e es ih =>
    refine ih (execStep timeout st e) ?_
    cases e with
    | stdoutData s => simpa [execStep] using h
    | stderrData s => simpa [execStep] using h
    | timerFire =>
      simp only [execStep]
      split <;> cases hs : st.settled <;> simp_all [settleWith]
    | closeEv code =>
      simp only [execStep]
      split <;> cases hs : st.settled <;> simp_all [settleWith]
    | errorEv m =>
      simp only [execStep]
      cases hs : st.settled <;> simp_all [settleWith]

/-- With the timer unarmed and no timeout settlement recorded, no event
can ever produce a timeout settlement or arm the timer. -/
theorem execFold_no_timeout (timeout : Int) (evs : List ProcEvent)
    (st : ExecState) (harm : st.timerArmed = false)
    (hset : ∀ tm, st.settled ≠ some (.timedOut tm)) :
    (evs.foldl (execStep timeout) st).timerArmed = false
    ∧ ∀ tm, (evs.foldl (execStep timeout) st).settled ≠ some (.timedOut tm) := by
  induction evs generalizing st with
  | nil => exact ⟨harm, hset⟩
  | cons e es ih =>
    refine ih (execStep timeout st e) ?_ ?_
    · cases e with
      | stdoutData s => simpa [execStep] using harm
      | stderrData s => simpa [execStep] using harm
      | timerFire => simp [execStep, harm]
      | closeEv code =>
        simp only [execStep]
        split <;> cases hs : st.settled <;> simp_all [settleWith]
      | errorEv m =>
        simp only [execStep]
        cases hs : st.settled <;> simp_all [settleWith]
    · cases e with
      | stdoutData s => simpa [execStep] using hset
      | stderrData s => simpa [execStep] using hset
      | timerFire =>
        simp only [execStep, harm]
        simpa using hset
      | closeEv code =>
        intro tm
        simp only [execStep]
        split <;> cases hs : st.settled <;> simp_all [settleWith]
      | errorEv m =>
        intro tm
        simp only [execStep]
        cases hs : st.settled <;> simp_all [settleWith]

/-- Data-only event chunks change only the output buffers: the timer,
SIGTERM record and settlement are untouched. -/
theorem execFold_data_only (timeout : Int) (pre : List ProcEvent)
    (st : ExecState) (hpre : ∀ e ∈ pre, isDataEv e = true) :
    (pre.foldl (execStep timeout) st).timerArmed = st.timerArmed
    ∧ (pre.foldl (execStep timeout) st).settled = st.settled
    ∧ (pre.foldl (execStep timeout) st).sigtermSent = st.sigtermSent := by
  induction pre generalizing st with
  | nil => exact ⟨rfl, rfl, rfl⟩
  | cons e es ih =>
    have he := hpre e (List.mem_cons_self _ _)
    have hrest : ∀ x ∈ es, isDataEv x = true :=
      fun x hx => hpre x (List.mem_cons_of_mem _ hx)
    obtain ⟨i1, i2, i3⟩ := ih (execStep timeout st e) hrest
    cases e with
    | stdoutData s => exact ⟨by simpa [execStep] using i1,
        by simpa [execStep] using i2, by simpa [execStep] using i3⟩
    | stderrData s => exact ⟨by simpa [execStep] using i1,
        by simpa [execStep] using i2, by simpa [execStep] using i3⟩
    | timerFire => simp [isDataEv] at he
    | closeEv code => simp [isDataEv] at he
    | errorEv m => simp [isDataEv] at he

/-! ## Claim theorems -/

/-- Claim C1: for every input string, ContentExtractor.extract tries the
three strategies in the fixed order (1) direct parse of the trimmed
text, (2) fenced code block, (3) first-to-last brace span; the first
strategy that succeeds determines the result; a later strategy is
invoked only after every earlier strategy has failed; in particular,
when the direct parse succeeds (as on a bare JSON object) strategies 2
and 3 are never invoked. -/
theorem claim_C1_strategy_order (content : String) :
    (extractJsonRun content).1 = extractJsonFromContent content
    ∧ (∀ v, directStrategy content = some v →
        extractJsonFromContent content = .ok v ∧ (extractJsonRun content).2 = [1])
    ∧ (directStrategy content = none →
        ∀ v, codeBlockStrategy content = some v →
          extractJsonFromContent content = .ok v ∧ (extractJsonRun content).2 = [1, 2])
    ∧ (directStrategy content = none → codeBlockStrategy content = none →
        ((∀ v, braceStrategy content = some v → extractJsonFromContent content = .ok v)
          ∧ (extractJsonRun content).2 = [1, 2, 3])) := by
  unfold extractJsonRun extractJsonFromContent extractJsonWithFallback
  cases h1 : directStrategy content <;>
    cases h2 : codeBlockStrategy content <;>
      cases h3 : braceStrategy content <;> simp_all

/-- Witness for C1: on the bare JSON object input the direct strategy
succeeds, the result is its parse, and only strategy 1 was invoked. -/
theorem claim_C1_strategy_order_witness :
    extractJsonFromContent "\x7b\"a\":1\x7d" = .ok (.obj [("a", .num ⟨1, 0⟩)])
    ∧ (extractJsonRun "\x7b\"a\":1\x7d").2 = [1] :=
  (claim_C1_strategy_order "\x7b\"a\":1\x7d").2.1 (.obj [("a", .num ⟨1, 0⟩)]) rfl

/-- Claim C4: when every extraction strategy fails, extraction raises the
error whose message embeds a 200-character-truncated preview of the
offending content. -/
theorem claim_C4_extraction_error (content : String)
    (h1 : directStrategy content = none)
    (h2 : codeBlockStrategy content = none)
    (h3 : braceStrategy content = none) :
    extractJsonFromContent content =
      .error ("Could not extract valid JSON from content: "
        ++ jsSubstring content 0 200 ++ "...") := by
  simp [extractJsonFromContent, extractJsonWithFallback, extractionFailureMsg, h1, h2, h3]

/-- Witness for C4: on an input with no brace pair and no code block all
three strategies fail and the extraction error carries the preview. -/
theorem claim_C4_extraction_error_witness :
    directStrategy "hello world" = none
    ∧ codeBlockStrategy "hello world" = none
    ∧ braceStrategy "hello world" = none
    ∧ extractJsonFromContent "hello world" =
      .error ("Could not extract valid JSON from content: "
        ++ jsSubstring "hello world" 0 200 ++ "...") :=
  ⟨rfl, rfl, rfl, claim_C4_extraction_error "hello world" rfl rfl rfl⟩

/-- Claim C3: for every raw output decoding to an envelope whose error
flag is falsy and whose result field is a non-empty string,
parseCliResponse returns exactly that string. -/
theorem claim_C3_result_unchanged (rawOutput : String) (v : Json) (s : String)
    (hv : jsonParse rawOutput = some v)
    (hie : jsTruthy (jsField v "is_error") = false)
    (hres : jsField v "result" = some (.str s))
    (hne : s ≠ "") :
    parseCliResponse rawOutput = .ok (.str s) := by
  unfold parseCliResponse parseCliResponseInner
  rw [hv]
  cases v <;> simp_all [jsField, jsTruthy]

/-- Witness for C3 on a concrete valid envelope. -/
theorem claim_C3_result_unchanged_witness :
    parseCliResponse "\x7b\"is_error\":false,\"result\":\"ok\"\x7d" = .ok (.str "ok") :=
  claim_C3_result_unchanged _ (.obj [("is_error", .bool false), ("result", .str "ok")])
    "ok" rfl rfl rfl (by decide)

/-- Counterexample to C2 as stated: on the envelope with is_error true
and result boom, the raised error travels the tool-error path, but its
message is not the result text boom — the catch block of
parseCliResponse re-wraps it in a fixed diagnostic frame. -/
theorem claim_C2_counterexample :
    parseCliResponse "\x7b\"is_error\":true,\"result\":\"boom\"\x7d" =
      .error ⟨.toolRequestFailed (some (.str "boom")),
              "\x7b\"is_error\":true,\"result\":\"boom\"\x7d"⟩
    ∧ CliError.message ⟨.toolRequestFailed (some (.str "boom")),
              "\x7b\"is_error\":true,\"result\":\"boom\"\x7d"⟩ ≠ "boom" :=
  ⟨rfl, by decide⟩

/-- Claim C2 as amended: for every envelope with a truthy error flag,
parseCliResponse fails through the tool-error path (a failure
constructor distinct from the decode-failure path), and the raised
message embeds the envelope result text (or the fallback Unknown error
when the result is falsy) inside the fixed wrapper text of the two
throw sites. -/
theorem claim_C2_amended (rawOutput : String) (v : Json)
    (hv : jsonParse rawOutput = some v)
    (hie : jsTruthy (jsField v "is_error") = true) :
    parseCliResponse rawOutput =
      .error ⟨.toolRequestFailed (jsField v "result"), rawOutput⟩
    ∧ CliError.message ⟨.toolRequestFailed (jsField v "result"), rawOutput⟩ =
        "Failed to parse CLI response: "
          ++ ("Claude CLI request failed: "
              ++ (if jsTruthy (jsField v "result")
                  then jsToString ((jsField v "result").getD .null)
                  else "Unknown error"))
          ++ "\nRaw output: " ++ jsSubstring rawOutput 0 500 ++ "..." := by
  refine ⟨?_, rfl⟩
  unfold parseCliResponse parseCliResponseInner
  rw [hv]
  cases v <;> simp_all [jsField, jsTruthy]

/-- Witness for the amended C2 on a concrete error envelope. -/
theorem claim_C2_amended_witness :
    parseCliResponse "\x7b\"is_error\":true,\"result\":\"no\"\x7d" =
      .error ⟨.toolRequestFailed (jsField
        (.obj [("is_error", .bool true), ("result", .str "no")]) "result"),
        "\x7b\"is_error\":true,\"result\":\"no\"\x7d"⟩ :=
  (claim_C2_amended "\x7b\"is_error\":true,\"result\":\"no\"\x7d"
    (.obj [("is_error", .bool true), ("result", .str "no")]) rfl rfl).1

/-- Claim C5: a task object with valid required fields that omits
dependencies, status, priority, details and testStrategy validates
successfully under prdSingleTaskSchema and receives the defaults
(empty list, pending, medium, empty strings); and in every task-set
document accepted by prdResponseSchema, each task object of the tasks
array that omitted one of these fields carries the corresponding
default in the validated result. -/
theorem claim_C5_schema_defaults :
    (∀ fs n ts ds,
      objGet fs "id" = some (.num n) → n.isInt → n.isPos →
      objGet fs "title" = some (.str ts) → 1 ≤ ts.length →
      objGet fs "description" = some (.str ds) → 1 ≤ ds.length →
      objGet fs "details" = none → objGet fs "testStrategy" = none →
      objGet fs "priority" = none → objGet fs "dependencies" = none →
      objGet fs "status" = none →
      prdSingleTaskSchema (.obj fs) =
        .ok ⟨n, ts, ds, "", "", "medium", [], "pending"⟩)
    ∧ (∀ v r fs ts,
        prdResponseSchema v = .ok r →
        jsField v "tasks" = some (.arr ts) → Json.obj fs ∈ ts →
        ∃ t, t ∈ r.tasks ∧ prdSingleTaskSchema (.obj fs) = .ok t
          ∧ (objGet fs "dependencies" = none → t.dependencies = [])
          ∧ (objGet fs "status" = none → t.status = "pending")
          ∧ (objGet fs "priority" = none → t.priority = "medium")
          ∧ (objGet fs "details" = none → t.details = "")
          ∧ (objGet fs "testStrategy" = none → t.testStrategy = "")) := by
  constructor
  · intro fs n ts ds hid hint hpos htl htll hd hdl h1 h2 h3 h4 h5
    rw [prdSingleTaskSchema_ok_iff]
    refine ⟨?_, ?_, ?_, ?_, ?_, ?_, ?_, ?_⟩ <;>
      simp [zNumIntPos, zStrMin1, zStrDefault, zPriorityField, zDepsField,
            hid, hint, hpos, htl, htll, hd, hdl, h1, h2, h3, h4, h5]
  · intro v r fs ts hresp htasks hmem
    cases v with
    | obj vfs =>
      unfold prdResponseSchema at hresp
      simp only [] at hresp
      simp only [jsField] at htasks
      rw [htasks] at hresp
      simp only [] at hresp
      cases hmap : mapME prdSingleTaskSchema ts with
      | error e => rw [hmap] at hresp; cases hresp
      | ok l =>
        rw [hmap] at hresp
        cases hmd : (match objGet vfs "metadata" with
          | some m => prdMetadataSchema m
          | none => (.error "metadata: required" : Except String PrdMetadata)) with
        | error e => rw [hmd] at hresp; cases hresp
        | ok md =>
          rw [hmd] at hresp
          cases hresp
          obtain ⟨t, htmem, hparse⟩ := mapME_mem hmap hmem
          have hc := (prdSingleTaskSchema_ok_iff fs t).mp hparse
          refine ⟨t, htmem, hparse, ?_, ?_, ?_, ?_, ?_⟩
          · intro hnone
            have hx := hc.2.2.2.2.2.2.1
            rw [hnone] at hx
            simpa [zDepsField, eq_comm] using hx
          · intro hnone
            have hx := hc.2.2.2.2.2.2.2
            rw [hnone] at hx
            simpa [zStrDefault, eq_comm] using hx
          · intro hnone
            have hx := hc.2.2.2.2.2.1
            rw [hnone] at hx
            simpa [zPriorityField, eq_comm] using hx
          · intro hnone
            have hx := hc.2.2.2.1
            rw [hnone] at hx
            simpa [zStrDefault, eq_comm] using hx
          · intro hnone
            have hx := hc.2.2.2.2.1
            rw [hnone] at hx
            simpa [zStrDefault, eq_comm] using hx
    | null => simp [jsField] at htasks
    | bool b => simp [jsField] at htasks
    | num n => simp [jsField] at htasks
    | str s => simp [jsField] at htasks
    | arr xs => simp [jsField] at htasks

/-- Witness for C5: a concrete task object with only id, title and
description validates to the defaulted record. -/
theorem claim_C5_schema_defaults_witness :
    prdSingleTaskSchema (.obj [("id", .num ⟨1, 0⟩), ("title", .str "T"),
        ("description", .str "D")]) =
      .ok ⟨⟨1, 0⟩, "T", "D", "", "", "medium", [], "pending"⟩ :=
  claim_C5_schema_defaults.1 _ ⟨1, 0⟩ "T" "D" rfl (by decide) (by decide)
    rfl (by decide) rfl (by decide) rfl rfl rfl rfl rfl

/-- Counterexample to C6 as stated: complexityAnalysisSchema accepts a
document whose complexity score 5.5 is not an integer — the schema uses
z.number().min(1).max(10) with no integrality check. -/
theorem claim_C6_counterexample :
    complexityAnalysisSchema (.arr [.obj [("taskId", .num ⟨1, 0⟩),
        ("taskTitle", .str "T"), ("complexityScore", .num ⟨55, 1⟩),
        ("recommendedSubtasks", .num ⟨3, 0⟩), ("expansionPrompt", .str "p"),
        ("reasoning", .str "r")]]) =
      .ok [⟨⟨1, 0⟩, "T", ⟨55, 1⟩, ⟨3, 0⟩, "p", "r"⟩]
    ∧ ¬ (JsNumber.mk 55 1).isInt :=
  ⟨rfl, by decide⟩

/-- Claim C6 as amended: the complexity-analysis schema accepts only
arrays, and an entry with numeric task id, string title, numeric
recommended count and string prompt and reasoning fields is accepted
iff its numeric complexity score lies between 1 and 10 inclusive;
integrality of the score is not required. -/
theorem claim_C6_amended (fs : List (String × Json)) (tid : JsNumber) (tt : String)
    (sc rs : JsNumber) (ep rn : String)
    (h1 : objGet fs "taskId" = some (.num tid))
    (h2 : objGet fs "taskTitle" = some (.str tt))
    (hsc : objGet fs "complexityScore" = some (.num sc))
    (h4 : objGet fs "recommendedSubtasks" = some (.num rs))
    (h5 : objGet fs "expansionPrompt" = some (.str ep))
    (h6 : objGet fs "reasoning" = some (.str rn)) :
    (complexityAnalysisItemSchema (.obj fs) = .ok ⟨tid, tt, sc, rs, ep, rn⟩
      ↔ ((JsNumber.ofNat 1).le sc ∧ sc.le (JsNumber.ofNat 10)))
    ∧ (∀ w l, complexityAnalysisSchema w = .ok l → ∃ xs, w = .arr xs) := by
  constructor
  · rw [complexityAnalysisItemSchema_ok_iff]
    simp only [zNum, zStr, zScore, h1, h2, hsc, h4, h5, h6]
    split_ifs with ha hb <;> simp_all
  · intro w l h
    cases w <;> simp_all [complexityAnalysisSchema]

/-- Witness for the amended C6: the 5.5 entry is accepted because 5.5
lies between 1 and 10. -/
theorem claim_C6_amended_witness :
    complexityAnalysisItemSchema (.obj [("taskId", .num ⟨1, 0⟩),
        ("taskTitle", .str "T"), ("complexityScore", .num ⟨55, 1⟩),
        ("recommendedSubtasks", .num ⟨3, 0⟩), ("expansionPrompt", .str "p"),
        ("reasoning", .str "r")]) = .ok ⟨⟨1, 0⟩, "T", ⟨55, 1⟩, ⟨3, 0⟩, "p", "r"⟩ :=
  ((claim_C6_amended [("taskId", .num ⟨1, 0⟩),
        ("taskTitle", .str "T"), ("complexityScore", .num ⟨55, 1⟩),
        ("recommendedSubtasks", .num ⟨3, 0⟩), ("expansionPrompt", .str "p"),
        ("reasoning", .str "r")] ⟨1, 0⟩ "T" ⟨55, 1⟩ ⟨3, 0⟩ "p" "r"
      rfl rfl rfl rfl rfl rfl).1).mpr (by decide)


/-- Claim C7: per executeCommand call, a non-positive deadline leaves the
timer unarmed and the call can never settle with the timeout outcome; a
positive deadline whose timer fires before any settling event makes the
call settle with the timeout outcome after sending SIGTERM; and the
settlement, fixed at the first settling event, is never changed by later
events — exactly one of the four outcomes occurs per completed call. -/
theorem claim_C7_executor (timeout : Int) (events pre post more : List ProcEvent) :
    (timeout ≤ 0 → (execInit timeout).timerArmed = false
      ∧ ∀ tm, (executeCommandRun timeout events).settled ≠ some (.timedOut tm))
    ∧ (0 < timeout → events = pre ++ .timerFire :: post →
        (∀ e ∈ pre, isDataEv e = true) →
        (executeCommandRun timeout events).settled = some (.timedOut timeout)
        ∧ (executeCommandRun timeout events).sigtermSent = true)
    ∧ (∀ o, (executeCommandRun timeout events).settled = some o →
        (executeCommandRun timeout (events ++ more)).settled = some o) := by
  refine ⟨?_, ?_, ?_⟩
  · intro hle
    have harm : (execInit timeout).timerArmed = false := by
      simp [execInit]
      omega
    refine ⟨harm, ?_⟩
    exact (execFold_no_timeout timeout events (execInit timeout) harm
      (by simp [execInit])).2
  · intro hpos heq hpre
    subst heq
    unfold executeCommandRun
    rw [List.foldl_append]
    obtain ⟨d1, d2, d3⟩ := execFold_data_only timeout pre (execInit timeout) hpre
    have harm : (pre.foldl (execStep timeout) (execInit timeout)).timerArmed = true := by
      rw [d1]; simp [execInit, hpos]
    have hset : (pre.foldl (execStep timeout) (execInit timeout)).settled = none := by
      rw [d2]; rfl
    have hstep :
        (execStep timeout (pre.foldl (execStep timeout) (execInit timeout)) .timerFire).settled
          = some (.timedOut timeout)
        ∧ (execStep timeout (pre.foldl (execStep timeout) (execInit timeout)) .timerFire).sigtermSent
          = true := by
      simp only [execStep, harm, if_true]
      constructor
      · simp [settleWith, hset]
      · simp [settleWith, hset]
    simp only [List.foldl_cons]
    exact ⟨execFold_settled_persists timeout post _ _ hstep.1,
      execFold_sigterm_persists timeout post _ hstep.2⟩
  · intro o h
    unfold executeCommandRun at h ⊢
    rw [List.foldl_append]
    exact execFold_settled_persists timeout more _ o h

/-- Witness for C7: with a 50ms deadline and the timer firing first, the
call settles with the timeout outcome and SIGTERM was sent. -/
theorem claim_C7_executor_witness :
    (executeCommandRun 50 [.timerFire]).settled = some (.timedOut 50)
    ∧ (executeCommandRun 50 [.timerFire]).sigtermSent = true :=
  (claim_C7_executor 50 [.timerFire] [] [] []).2.1 (by decide) rfl (by simp)

/-- Counterexample to C8 as stated: on a provider instance whose first
probe fails, the first checkAvailability call raises instead of
returning a boolean while the second returns false, so the two calls do
not both return the same boolean value. -/
theorem claim_C8_counterexample :
    (checkTwiceRuns (.spawnError "spawn claude ENOENT")
        (.spawnError "spawn claude ENOENT")).1 =
      .error "Claude CLI not available: Failed to spawn Claude CLI: spawn claude ENOENT"
    ∧ (checkTwiceRuns (.spawnError "spawn claude ENOENT")
        (.spawnError "spawn claude ENOENT")).2.1 = .ok false
    ∧ ¬ ∃ b : Bool, (checkTwiceRuns (.spawnError "spawn claude ENOENT")
        (.spawnError "spawn claude ENOENT")).1 = .ok b := by
  refine ⟨rfl, rfl, ?_⟩
  rintro ⟨b, hb⟩
  simp [checkTwiceRuns, checkAvailability] at hb

/-- Claim C8 as amended: two consecutive checkAvailability calls on a
fresh provider instance perform the underlying version probe exactly
once; when the first call returns a boolean, the second returns the
same boolean; when the first probe fails, the first call raises and the
second returns false without re-probing. -/
theorem claim_C8_amended (p1 p2 : ExecOutcome) :
    (checkTwiceRuns p1 p2).2.2 = 1
    ∧ (∀ b, (checkTwiceRuns p1 p2).1 = .ok b → (checkTwiceRuns p1 p2).2.1 = .ok b)
    ∧ (∀ m, (checkTwiceRuns p1 p2).1 = .error m →
        (checkTwiceRuns p1 p2).2.1 = .ok false) := by
  cases p1 <;> simp [checkTwiceRuns, checkAvailability]

/-- Witness for the amended C8: with a succeeding probe the check runs
once and both calls return true. -/
theorem claim_C8_amended_witness :
    (checkTwiceRuns (.success "1.0.0") (.success "1.0.0")).2.2 = 1
    ∧ (checkTwiceRuns (.success "1.0.0") (.success "1.0.0")).2.1 = .ok true :=
  ⟨(claim_C8_amended (.success "1.0.0") (.success "1.0.0")).1,
   (claim_C8_amended (.success "1.0.0") (.success "1.0.0")).2.1 true rfl⟩

/-- Claim C9: the bridge spawn call uses the hard-coded executable name
claude for every environment, even when the CLAUDE_CLI_PATH override is
set, while the validation script resolves the override — the override
documented as implemented (setup guide, roadmap item Config.2) is
ignored by the bridge. -/
theorem claim_C9_spawn_override :
    bridgeSpawnTarget [("CLAUDE_CLI_PATH", "/custom/claude")] = "claude"
    ∧ validatorCliPath [("CLAUDE_CLI_PATH", "/custom/claude")] = "/custom/claude"
    ∧ ∀ env, bridgeSpawnTarget env = "claude" := by
  refine ⟨rfl, by decide, fun _ => rfl⟩

/-- Claim C10: on a provider instance whose cached availability flag is
false (first probe failed), every checkAvailability call returns false
without raising and without re-probing, and generateTasksFromPrd on
that instance never fails with the unavailability error but proceeds to
spawn the external process. -/
theorem claim_C10_cached_false (env : FacadeEnv) :
    checkAvailability ⟨some false⟩ env.probe = (.ok false, ⟨some false⟩, false)
    ∧ (generateTasksFromPrdRun ⟨some false⟩ env).2.2 = true
    ∧ (∀ e, (generateTasksFromPrdRun ⟨some false⟩ env).1 = .error e →
        e.isUnavailable = false) := by
  refine ⟨rfl, ?_, ?_⟩
  · unfold generateTasksFromPrdRun
    simp only [checkAvailability]
    cases env.exec <;> simp
  · intro e he
    unfold generateTasksFromPrdRun at he
    simp only [checkAvailability] at he
    cases hex : env.exec with
    | success raw =>
      rw [hex] at he
      simp only [] at he
      cases hp : parseCliResponse raw with
      | error pe => rw [hp] at he; simp only [] at he; cases he; rfl
      | ok ai =>
        rw [hp] at he
        simp only [] at he
        cases ai with
        | str content =>
          simp only [] at he
          cases hx : extractJsonFromContent content with
          | error m => rw [hx] at he; simp only [] at he; cases he; rfl
          | ok doc =>
            rw [hx] at he
            simp only [] at he
            cases hv : prdResponseSchema doc with
            | error m => rw [hv] at he; simp only [] at he; cases he; rfl
            | ok resp => rw [hv] at he; simp only [] at he; cases he
        | null => simp only [] at he; cases he; rfl
        | bool b => simp only [] at he; cases he; rfl
        | num n => simp only [] at he; cases he; rfl
        | arr xs => simp only [] at he; cases he; rfl
        | obj fs => simp only [] at he; cases he; rfl
    | timedOut t =>
      rw [hex] at he
      simp only [] at he
      cases he; rfl
    | processError c s =>
      rw [hex] at he
      simp only [] at he
      cases he; rfl
    | spawnError m =>
      rw [hex] at he
      simp only [] at he
      cases he; rfl

/-- Witness for C10 on a concrete instance and environment: the cached
false flag yields a false return without probing, the main process is
spawned, and the concrete failure produced is not the unavailability
error. -/
theorem claim_C10_cached_false_witness :
    checkAvailability ⟨some false⟩ (ExecOutcome.success "x") =
      (.ok false, ⟨some false⟩, false)
    ∧ (generateTasksFromPrdRun ⟨some false⟩
        ⟨.success "x", .spawnError "boom"⟩).2.2 = true
    ∧ FacadeErr.isUnavailable (.execFailed (execErrMsg (.spawnError "boom"))) = false :=
  ⟨(claim_C10_cached_false ⟨.success "x", .spawnError "boom"⟩).1,
   (claim_C10_cached_false ⟨.success "x", .spawnError "boom"⟩).2.1,
   (claim_C10_cached_false ⟨.success "x", .spawnError "boom"⟩).2.2 _ rfl⟩


end CliBridge
